import Mathlib

/-!
Verification of the authoritative-zone lifecycle core (knot `zones.c` and
dnslib `zone-dump.c`) against its natural-language specification.  The C code
is shallowly embedded: machine integers become `Nat` with explicit reduction
modulo `2 ^ 32` / `2 ^ 64` where the C types truncate, fallible calls into
external collaborators become explicit outcome parameters, and the mutable
state touched by each function becomes explicit state passing.
-/

namespace Knot

/-- Abstract knot error codes (`KNOT_EOK`, `KNOT_EINVAL`, ...) as exposed to
callers; the spec treats them as abstract names. -/
inductive KnotR where
  | EOK | EINVAL | ENOMEM | ERROR | EBUSY | ERANGE | EMALF | EACCES
  deriving DecidableEq, Repr

/-! ## Journal key encoding (`zones.c` lines 437-492)

The 64-bit journal key carries `serial_to` in its upper 32 bits and
`serial_from` in its lower 32 bits. -/

/-- Low 32 bits of a journal key; C source: `(uint32_t)(k & 0x00000000ffffffff)`
(`ixfrdb_key_from`, zones.c:438). -/
def ixfrdb_key_from (k : Nat) : Nat := k &&& 0xffffffff

/-- High 32 bits of a journal key; C source: `(uint32_t)(k >> 32)`
(`ixfrdb_key_to`, zones.c:450); the `% 2 ^ 32` models the `uint32_t` cast. -/
def ixfrdb_key_to (k : Nat) : Nat := (k >>> 32) % 2 ^ 32

/-- Reinterpretation of the low 32 bits of a natural number as a two's
complement C `int`, modelling the implicit `uint64_t` → `int` conversion at
the `return` of the comparators. -/
def toInt32 (n : Nat) : Int :=
  if n % 2 ^ 32 < 2 ^ 31 then ((n % 2 ^ 32 : Nat) : Int)
  else ((n % 2 ^ 32 : Nat) : Int) - 2 ^ 32

/-- Comparator on the `serial_to` half; C source:
`return ((uint64_t)ixfrdb_key_to(k)) - to;` (`ixfrdb_key_to_cmp`,
zones.c:462).  The subtraction happens in `uint64_t` (hence the wraparound
`(a + 2 ^ 64 - s) % 2 ^ 64`) and the result is truncated to `int`. -/
def ixfrdb_key_to_cmp (k s : Nat) : Int :=
  toInt32 ((ixfrdb_key_to k + 2 ^ 64 - s % 2 ^ 64) % 2 ^ 64)

/-- Comparator on the `serial_from` half; C source:
`return ((uint64_t)ixfrdb_key_from(k)) - from;` (`ixfrdb_key_from_cmp`,
zones.c:474). -/
def ixfrdb_key_from_cmp (k s : Nat) : Int :=
  toInt32 ((ixfrdb_key_from k + 2 ^ 64 - s % 2 ^ 64) % 2 ^ 64)

/-- Key construction; C source:
`return (((uint64_t)to) << ((uint64_t)32)) | ((uint64_t)from);`
(`ixfrdb_key_make`, zones.c:486).  The `% 2 ^ 32` on both arguments models
the `uint32_t` parameter types. -/
def ixfrdb_key_make (serial_from serial_to : Nat) : Nat :=
  ((serial_to % 2 ^ 32) <<< 32) ||| (serial_from % 2 ^ 32)

/-! ## Serial policy (`zones.c` lines 818-852) -/

/-- Zone serial policies from the configuration
(`CONF_SERIAL_INCREMENT` / `CONF_SERIAL_UNIXTIME`). -/
inductive SerialPolicy where
  | increment | unixtime
  deriving DecidableEq, Repr

/-- Modelled from the spec: RFC 1982 strict order on 32-bit serials.
`ns_serial_compare` is declared outside src/; the spec defines serial
ordering as RFC 1982 cyclic comparison (spec §3 invariants and glossary). -/
def serial_lt (s1 s2 : Nat) : Prop :=
  (s1 < s2 ∧ s2 - s1 < 2 ^ 31) ∨ (s2 < s1 ∧ 2 ^ 31 < s1 - s2)

instance (s1 s2 : Nat) : Decidable (serial_lt s1 s2) := by
  unfold serial_lt
  infer_instance

/-- Modelled from the spec: the comparator used by the warning check in
`zones_next_serial`; negative when `s1` is RFC-1982 below `s2`, zero on
equality, positive otherwise. -/
def ns_serial_compare (s1 s2 : Nat) : Int :=
  if s1 = s2 then 0 else if serial_lt s1 s2 then -1 else 1

/-- State read by `zones_next_serial`: the configured policy
(`zones_serial_policy`, zones.c:818) and the current serial of the zone
contents (`knot_zone_serial`). -/
structure ZoneSerial where
  serial_policy : SerialPolicy
  old_serial : Nat

/-- Model of `zones_next_serial` (zones.c:825): choose the new serial per
the policy, warn (second component) when the old serial compares
greater-or-equal to the new one, and return the new serial regardless.
`time_now` models `time(NULL)`; `% 2 ^ 32` models the `uint32_t` casts. -/
def zones_next_serial (z : ZoneSerial) (time_now : Nat) : Nat × Bool :=
  let new_serial :=
    match z.serial_policy with
    | .increment => (z.old_serial + 1) % 2 ^ 32
    | .unixtime => time_now % 2 ^ 32
  (new_serial, decide (0 ≤ ns_serial_compare z.old_serial new_serial))

/-! ## Changesets and journal store (`zones.c` lines 296-433) -/

/-- Journal transaction state as observable through the journal API. -/
inductive JTxn where
  | noTxn | openTxn | committed
  deriving DecidableEq, Repr

/-- A changeset; only the pieces the embedded functions inspect are kept:
the serial pair and the removal/addition lists, with RRSets abstracted to
indices. -/
structure KnotChangeset where
  serial_from : Nat
  serial_to : Nat
  remove : List Nat
  add : List Nat
  deriving DecidableEq, Repr

/-- Modelled from the spec: `knot_changeset_is_empty` lives in the changeset
engine outside src/; per spec §3 a changeset carries removal and addition
lists, and it is empty when it carries neither removals nor additions. -/
def knot_changeset_is_empty (ch : KnotChangeset) : Bool :=
  ch.remove.isEmpty && ch.add.isEmpty

/-- Model of `zones_changesets_empty` (zones.c:296): a changesets envelope
(`none` models the NULL pointer) is empty when it is NULL, holds no
changeset, or its first changeset is empty. -/
def zones_changesets_empty (chs : Option (List KnotChangeset)) : Bool :=
  match chs with
  | none => true
  | some [] => true
  | some (ch :: _) => knot_changeset_is_empty ch

/-- Outcomes of the external journal calls inside one
`zones_store_chgsets_try_store` attempt: whether
`zones_store_changesets_begin` yields a transaction, and the result of
`zones_store_changesets`. -/
structure TryEnv where
  begin_ok : Bool
  store_ret : KnotR
  deriving DecidableEq, Repr

/-- Result of a try-store attempt: the returned code, the journal
transaction state after it, and how many store calls and rollbacks it
performed. -/
structure TryOut where
  ret : KnotR
  txn : JTxn
  stores : Nat
  rollbacks : Nat
  deriving DecidableEq, Repr

/-- Model of `zones_store_chgsets_try_store` (zones.c:309): begin a journal
transaction (failure yields `KNOT_ERROR`), store the changesets, and on any
store failure roll the transaction back and clear the caller's transaction
pointer. -/
def zones_store_chgsets_try_store (e : TryEnv) : TryOut :=
  if e.begin_ok = false then ⟨.ERROR, .noTxn, 0, 0⟩
  else if e.store_ret = .EOK then ⟨.EOK, .openTxn, 1, 0⟩
  else ⟨e.store_ret, .noTxn, 1, 1⟩

/-- External outcomes consumed by `zones_store_changesets_begin_and_store`:
the first attempt, the flush (`zones_zonefile_sync_from_ev`) performed on
`KNOT_EBUSY`, and the retry attempt. -/
structure StoreEnv where
  try1 : TryEnv
  flush_ret : KnotR
  try2 : TryEnv
  deriving DecidableEq, Repr

/-- Accumulated observable result of
`zones_store_changesets_begin_and_store`: returned code, journal transaction
state, number of begun attempts, of store calls, and of journal flushes. -/
structure StoreResult where
  ret : KnotR
  txn : JTxn
  begins : Nat
  stores : Nat
  flushes : Nat
  deriving DecidableEq, Repr

/-- Model of `zones_store_changesets_begin_and_store` (zones.c:394): reject
empty envelopes with `KNOT_EINVAL` before touching the journal; otherwise
try to store; on `KNOT_EBUSY` (journal full) flush the journal to the text
zonefile and, if the flush succeeded, retry exactly once; any other failure
is propagated without a flush. -/
def zones_store_changesets_begin_and_store
    (chs : Option (List KnotChangeset)) (env : StoreEnv) : StoreResult :=
  if zones_changesets_empty chs then ⟨.EINVAL, .noTxn, 0, 0, 0⟩
  else
    let t1 := zones_store_chgsets_try_store env.try1
    if t1.ret = .EBUSY then
      if env.flush_ret = .EOK then
        let t2 := zones_store_chgsets_try_store env.try2
        ⟨t2.ret, t2.txn, 2, t1.stores + t2.stores, 1⟩
      else ⟨env.flush_ret, .noTxn, 1, t1.stores, 1⟩
    else ⟨t1.ret, t1.txn, 1, t1.stores, 0⟩

/-! ## DDNS UPDATE path (`zones.c` lines 708-1181) -/

/-- Outcome of the merge step inside `zones_merge_and_store_changesets`:
whether `knot_changeset_merge` succeeded and the error it returned
otherwise. -/
structure MergeEnv where
  merge_ok : Bool
  merge_ret : KnotR
  deriving DecidableEq, Repr

/-- Model of `zones_merge_and_store_changesets` (zones.c:761): dispatch on
emptiness of the semantic and DNSSEC changesets, merge when both are
non-empty, and store through `zones_store_changesets_begin_and_store`. -/
def zones_merge_and_store_changesets (diff sec : Option (List KnotChangeset))
    (menv : MergeEnv) (senv : StoreEnv) : StoreResult :=
  if zones_changesets_empty diff && zones_changesets_empty sec then
    ⟨.EOK, .noTxn, 0, 0, 0⟩
  else if !zones_changesets_empty diff && zones_changesets_empty sec then
    zones_store_changesets_begin_and_store diff senv
  else if zones_changesets_empty diff && !zones_changesets_empty sec then
    zones_store_changesets_begin_and_store sec senv
  else if menv.merge_ok = false then ⟨menv.merge_ret, .noTxn, 0, 0, 0⟩
  else zones_store_changesets_begin_and_store diff senv

/-- Result of `knot_ns_process_update`: success with a populated changeset,
a negative error code, or a positive no-change signal. -/
inductive PUpd where
  | ok | errNeg (e : KnotR) | noChange
  deriving DecidableEq, Repr

/-- DNS RCODE values written through the `rcode` out-parameter of the
UPDATE path. -/
inductive Rcode where
  | SERVFAIL | NOERROR
  deriving DecidableEq, Repr

/-- Outcomes of all external calls made by `zones_process_update_auth`, in
program order: changesets allocation, UPDATE application, DNSSEC signing,
merge and journal store, DNSSEC changeset application or NSEC3 re-pointing,
sign replanning, journal commit, and the atomic contents switch. -/
structure UpdEnv where
  chgsets_ok : Bool
  chg_create_ok : Bool
  process : PUpd
  dnssec_enable : Bool
  sec_create_ok : Bool
  fake_zone_ok : Bool
  dnskey_changed : Bool
  sign_full_ret : KnotR
  sign_inc_ret : KnotR
  chs : Option (List KnotChangeset)
  sec : Option (List KnotChangeset)
  menv : MergeEnv
  senv : StoreEnv
  apply_ret : KnotR
  replan_ret : KnotR
  adjust_ret : KnotR
  commit_ret : KnotR
  switch_ret : KnotR

/-- Observable outcome of `zones_process_update_auth`: return code, the
RCODE written through the out-parameter (`none` when the function returns
before touching it), the final journal transaction state, and whether the
new contents were atomically switched in (the old snapshot stays visible
while this is `false`). -/
structure UpdResult where
  ret : KnotR
  rcode : Option Rcode
  txn : JTxn
  switched : Bool
  deriving DecidableEq, Repr

/-- Tail of `zones_process_update_auth` after the store (zones.c:1073-1180):
apply the DNSSEC changeset (or re-point NSEC3 pointers), replan signing,
commit the journal transaction if one is open, and atomically switch the
contents.  Failures of apply / replan / adjust roll the transaction back; a
failed commit leaves it open and uncommitted; a failed switch returns
`KNOT_ERROR` with the transaction left as the commit left it. -/
def upd_after_store (ms : StoreResult) (new_sigs : Bool)
    (apply_ret replan_ret adjust_ret commit_ret switch_ret : KnotR) : UpdResult :=
  if new_sigs && !(apply_ret = .EOK) then ⟨apply_ret, some .SERVFAIL, .noTxn, false⟩
  else if new_sigs && !(replan_ret = .EOK) then ⟨replan_ret, some .SERVFAIL, .noTxn, false⟩
  else if !new_sigs && !(adjust_ret = .EOK) then ⟨adjust_ret, some .SERVFAIL, .noTxn, false⟩
  else if ms.txn = .openTxn then
    if !(commit_ret = .EOK) then ⟨commit_ret, some .SERVFAIL, .openTxn, false⟩
    else if !(switch_ret = .EOK) then ⟨.ERROR, some .SERVFAIL, .committed, false⟩
    else ⟨.EOK, some .NOERROR, .committed, true⟩
  else if !(switch_ret = .EOK) then ⟨.ERROR, some .SERVFAIL, ms.txn, false⟩
  else ⟨.EOK, some .NOERROR, ms.txn, true⟩

/-- Model of `zones_process_update_auth` (zones.c:925): the control flow of
the DDNS UPDATE path over the outcomes of its external calls, tracking the
journal transaction state and the visibility of the new contents.  Store
failures arrive with the transaction already rolled back
(`zones_store_chgsets_try_store`); the tail is `upd_after_store`. -/
def zones_process_update_auth (env : UpdEnv) : UpdResult :=
  if env.chgsets_ok = false then ⟨.EOK, some .SERVFAIL, .noTxn, false⟩
  else if env.chg_create_ok = false then ⟨.ENOMEM, none, .noTxn, false⟩
  else
    match env.process with
    | .errNeg e => ⟨e, some .SERVFAIL, .noTxn, false⟩
    | .noChange => ⟨.EOK, some .NOERROR, .noTxn, false⟩
    | .ok =>
      if env.dnssec_enable && !env.sec_create_ok then
        ⟨.ENOMEM, some .SERVFAIL, .noTxn, false⟩
      else if env.fake_zone_ok = false then
        ⟨.ENOMEM, some .SERVFAIL, .noTxn, false⟩
      else if env.dnssec_enable &&
          !((if env.dnskey_changed then env.sign_full_ret else env.sign_inc_ret) = .EOK) then
        ⟨if env.dnskey_changed then env.sign_full_ret else env.sign_inc_ret,
         some .SERVFAIL, .noTxn, false⟩
      else
        let secv := if env.dnssec_enable then env.sec else none
        let ms := zones_merge_and_store_changesets env.chs secv env.menv env.senv
        if !(ms.ret = .EOK) then ⟨ms.ret, some .SERVFAIL, ms.txn, false⟩
        else
          upd_after_store ms (!zones_changesets_empty secv)
            env.apply_ret env.replan_ret env.adjust_ret env.commit_ret env.switch_ret

/-- Concrete run of the UPDATE path in which every step succeeds except the
final atomic contents switch; journal and store succeed, DNSSEC is off. -/
def updSwitchFailEnv : UpdEnv :=
  { chgsets_ok := true, chg_create_ok := true, process := .ok,
    dnssec_enable := false, sec_create_ok := true, fake_zone_ok := true,
    dnskey_changed := false, sign_full_ret := .EOK, sign_inc_ret := .EOK,
    chs := some [⟨100, 101, [7], []⟩], sec := none,
    menv := ⟨true, .EOK⟩, senv := ⟨⟨true, .EOK⟩, .EOK, ⟨true, .EOK⟩⟩,
    apply_ret := .EOK, replan_ret := .EOK, adjust_ret := .EOK,
    commit_ret := .EOK, switch_ret := .ERROR }

/-! ## Zonefile sync (`zones.c` lines 277-294 and 1187-1280) -/

/-- A journal node as seen by the sync walk, abstracted to the three flag
bits the code manipulates. -/
structure JNode where
  valid : Bool
  dirty : Bool
  trans : Bool
  deriving DecidableEq, Repr

/-- Model of `zones_ixfrdb_sync_apply` (zones.c:278): clear the DIRTY bit
of a node that carries it (and sync it through `journal_update`). -/
def zones_ixfrdb_sync_apply (n : JNode) : JNode :=
  if n.dirty then { n with dirty := false } else n

/-- Per-zone state read and written by `zones_zonefile_sync`. -/
structure ZoneSync where
  zonefile_serial : Nat
  zonefile_mtime : Nat
  deriving DecidableEq, Repr

/-- Observable outcome of `zones_zonefile_sync`: return code, updated zone
state, updated journal, and the number of zonefile writes attempted
(`zones_dump_zone_text` invocations). -/
structure SyncResult where
  ret : KnotR
  zone : ZoneSync
  journal : List JNode
  writes : Nat
  deriving DecidableEq, Repr

/-- Model of `zones_zonefile_sync` (zones.c:1187).  `contents` is the
serial `knot_rdata_soa_serial` reports for the apex SOA of the current
contents (`none` models NULL contents, a negative value its error return);
`dump_ret` and `stat_ok` are the outcomes of `zones_dump_zone_text` and
`stat`, and `st_mtime` the file time `stat` reports.  When the zonefile
serial already equals the contents serial nothing is written and
`KNOT_ERANGE` is returned; after a successful dump the journal DIRTY bits
are cleared and the zonefile serial is updated. -/
def zones_zonefile_sync (z : ZoneSync) (contents : Option Int)
    (journal : List JNode) (dump_ret : KnotR) (stat_ok : Bool)
    (st_mtime : Nat) : SyncResult :=
  match contents with
  | none => ⟨.EINVAL, z, journal, 0⟩
  | some serial_ret =>
    if serial_ret < 0 then ⟨.EINVAL, z, journal, 0⟩
    else
      let serial_to := serial_ret.toNat % 2 ^ 32
      if z.zonefile_serial ≠ serial_to then
        if dump_ret ≠ .EOK then ⟨dump_ret, z, journal, 1⟩
        else if stat_ok = false then ⟨.ERROR, z, journal, 1⟩
        else ⟨.EOK, ⟨serial_to, st_mtime⟩, journal.map zones_ixfrdb_sync_apply, 1⟩
      else ⟨.ERANGE, z, journal, 0⟩

/-! ## CNAME cycle check (`zone-dump.c` lines 30 and 143-190) -/

def MAX_CNAME_CYCLE_DEPTH : Nat := 15

/-- A node of the checked zone as seen by the cycle check: the target name
of its CNAME RRSet when it hosts one. -/
structure CnameNode where
  cname_target : Option Nat
  deriving DecidableEq, Repr

/-- The two node trees consulted by the check (`dnslib_zone_get_node` and
`dnslib_zone_get_nsec3_node`); domain names are abstracted to naturals. -/
structure CnameZone where
  get_node : Nat → Option CnameNode
  get_nsec3_node : Nat → Option CnameNode

/-- One step of the chain walk in `check_cname_cycles_in_zone`
(zone-dump.c:162-180): look the name up in the normal tree, then — only if
absent there — in the NSEC3 tree; a found node continues the chain through
its CNAME RRSet, a missing node or a node without CNAME ends it. -/
def cname_step (z : CnameZone) (d : Nat) : Option Nat :=
  match z.get_node d with
  | some n => n.cname_target
  | none =>
    match z.get_nsec3_node d with
    | some n => n.cname_target
    | none => none

/-- The loop of `check_cname_cycles_in_zone` (zone-dump.c:161-182): while
`i < MAX_CNAME_CYCLE_DEPTH` and the next dname exists, follow one link and
increment `i`; returns the final `i`.  The fuel argument maintains
`fuel = MAX_CNAME_CYCLE_DEPTH - i`, making the recursion structural. -/
def cname_loop (z : CnameZone) : Nat → Option Nat → Nat → Nat
  | 0, _, i => i
  | _ + 1, none, i => i
  | fuel + 1, some d, i => cname_loop z fuel (cname_step z d) (i + 1)

/-- Model of `check_cname_cycles_in_zone` (zone-dump.c:144), started at the
CNAME target `start` of the checked RRSet (always present, per the
asserts): run the bounded walk from `i = 0` and report `-1` (cycle) when
the final `i` reached the depth bound, `0` otherwise. -/
def check_cname_cycles_in_zone (z : CnameZone) (start : Nat) : Int :=
  if MAX_CNAME_CYCLE_DEPTH ≤ cname_loop z MAX_CNAME_CYCLE_DEPTH (some start) 0 then -1
  else 0

/-- Chain iteration used to specify the walk: follow `n` links from `od`;
`none` is absorbing and marks a terminated chain (the looked-up name has no
node in either tree, or its node has no CNAME). -/
def cname_iter (z : CnameZone) : Option Nat → Nat → Option Nat
  | none, _ => none
  | some d, 0 => some d
  | some d, n + 1 => cname_iter z (cname_step z d) n

/-- Auxiliary: number of loop iterations the bounded walk performs before
the chain ends, capped by the fuel. -/
def steps_until_none (z : CnameZone) : Nat → Option Nat → Nat
  | 0, _ => 0
  | _ + 1, none => 0
  | fuel + 1, some d => steps_until_none z fuel (cname_step z d) + 1

/-- Concrete zone whose CNAME chain 0 → 1 → ... → 14 leaves the zone at the
15th lookup: nodes 0..13 exist and point one further, node 14 does not
exist. -/
def cnameChainZone : CnameZone :=
  ⟨fun d => if d < 14 then some ⟨some (d + 1)⟩ else none, fun _ => none⟩

/-! ## Binary zone dump counters (`zone-dump.c` lines 408-409, 576-664 and
676-758) -/

/-- A node of a dumped zone, reduced to what the counter logic reads:
whether it is non-authoritative (`dnslib_node_is_non_auth`). -/
structure DumpNode where
  non_auth : Bool
  deriving DecidableEq, Repr

/-- A zone handed to `dnslib_zdump_binary`: its normal tree and its NSEC3
tree in traversal order. -/
structure DumpZone where
  normal : List DumpNode
  nsec3 : List DumpNode
  deriving DecidableEq, Repr

/-- Model of `dnslib_node_dump_binary` (zone-dump.c:576) restricted to the
counter updates: increment the process-global `node_count` and, for
authoritative nodes, `zone->node_count`.  State is
`(node_count, zone.node_count)`. -/
def dnslib_node_dump_binary (st : Nat × Nat) (node : DumpNode) : Nat × Nat :=
  (st.1 + 1, if node.non_auth then st.2 else st.2 + 1)

/-- The three counter slots patched back into the dump header
(zone-dump.c:742-747). -/
structure DumpHeader where
  normal_count : Nat
  nsec3_count : Nat
  auth_count : Nat
  deriving DecidableEq, Repr

/-- Model of `dnslib_zdump_binary` (zone-dump.c:676) restricted to the
counters: `zone->node_count` is reset to zero on entry but the process-wide
static `node_count` is not; the normal tree is traversed, `tmp_count`
snapshots the global counter, the global counter is reset to zero, the
NSEC3 tree is traversed, and the header slots are patched with
`tmp_count`, the global counter and `zone->node_count`.  Takes and returns
the process-global counter. -/
def dnslib_zdump_binary (node_count : Nat) (z : DumpZone) : DumpHeader × Nat :=
  let st1 := z.normal.foldl dnslib_node_dump_binary (node_count, 0)
  let tmp_count := st1.1
  let st2 := z.nsec3.foldl dnslib_node_dump_binary (0, st1.2)
  (⟨tmp_count, st2.1, st2.2⟩, st2.1)

/-- A process run: dump the given zones in order, threading the static
`node_count` (zero-initialised at process start) across the calls. -/
def zdump_run : Nat → List DumpZone → List DumpHeader
  | _, [] => []
  | g, z :: rest => (dnslib_zdump_binary g z).1 :: zdump_run (dnslib_zdump_binary g z).2 rest

/-- Number of authoritative nodes in a node list. -/
def dump_auth_count (l : List DumpNode) : Nat := (l.filter (fun n => !n.non_auth)).length

/-! ## SOA timers (`zones.c` lines 59-132) -/

/-- SOA RDATA fields consulted by the timer helpers. -/
structure SoaRdata where
  refresh : Nat
  retry : Nat
  expire : Nat
  deriving DecidableEq, Repr

/-- Accessor `knot_rdata_soa_refresh`; `% 2 ^ 32` models its `uint32_t`
return type. -/
def knot_rdata_soa_refresh (soa : SoaRdata) : Nat := soa.refresh % 2 ^ 32

/-- Accessor `knot_rdata_soa_retry`. -/
def knot_rdata_soa_retry (soa : SoaRdata) : Nat := soa.retry % 2 ^ 32

/-- Accessor `knot_rdata_soa_expire`. -/
def knot_rdata_soa_expire (soa : SoaRdata) : Nat := soa.expire % 2 ^ 32

/-- A zone as consulted by `zones_soa_timer`: the apex SOA of its contents,
or `none` for NULL contents. -/
structure TimerZone where
  contents : Option SoaRdata
  deriving DecidableEq, Repr

/-- Model of `zones_soa_timer` (zones.c:71): NULL contents yield 0,
otherwise the selected SOA field is converted to milliseconds in
`uint32_t` arithmetic (`ret * 1000`, wrapping modulo `2 ^ 32`). -/
def zones_soa_timer (zone : TimerZone) (rr_func : SoaRdata → Nat) : Nat :=
  match zone.contents with
  | none => 0
  | some soa => rr_func soa * 1000 % 2 ^ 32

/-- Model of `zones_soa_refresh` (zones.c:107). -/
def zones_soa_refresh (zone : TimerZone) : Nat :=
  zones_soa_timer zone knot_rdata_soa_refresh

/-- Model of `zones_soa_retry` (zones.c:118). -/
def zones_soa_retry (zone : TimerZone) : Nat :=
  zones_soa_timer zone knot_rdata_soa_retry

/-- Model of `zones_soa_expire` (zones.c:129). -/
def zones_soa_expire (zone : TimerZone) : Nat :=
  zones_soa_timer zone knot_rdata_soa_expire

/-! # Theorems -/

/-! ## General lemmas about the key encoding -/

theorem ixfrdb_key_from_eq_mod (k : Nat) : ixfrdb_key_from k = k % 2 ^ 32 := by
  have h : (0xffffffff : Nat) = 2 ^ 32 - 1 := by norm_num
  rw [ixfrdb_key_from, h, Nat.and_pow_two_sub_one_eq_mod]

theorem ixfrdb_key_from_lt (k : Nat) : ixfrdb_key_from k < 2 ^ 32 := by
  rw [ixfrdb_key_from_eq_mod]; exact Nat.mod_lt _ (by norm_num)

theorem ixfrdb_key_to_lt (k : Nat) : ixfrdb_key_to k < 2 ^ 32 :=
  Nat.mod_lt _ (by norm_num)

theorem key_make_testBit_low (sf st i : Nat) (hi : i < 32) :
    ((st <<< 32) ||| sf).testBit i = sf.testBit i := by
  rw [Nat.testBit_lor, Nat.testBit_shiftLeft]
  have h1 : decide (i ≥ 32) = false := by simp [Nat.not_le.mpr hi]
  rw [h1, Bool.false_and, Bool.false_or]

theorem key_make_testBit_high (sf st i : Nat) (hf : sf < 2 ^ 32) (hi : 32 ≤ i) :
    ((st <<< 32) ||| sf).testBit i = st.testBit (i - 32) := by
  rw [Nat.testBit_lor, Nat.testBit_shiftLeft]
  have h1 : decide (i ≥ 32) = true := by simpa using hi
  have h2 : sf.testBit i = false :=
    Nat.testBit_eq_false_of_lt (lt_of_lt_of_le hf (Nat.pow_le_pow_right (by norm_num) hi))
  rw [h1, h2, Bool.true_and, Bool.or_false]

theorem key_from_make (sf st : Nat) (hf : sf < 2 ^ 32) (ht : st < 2 ^ 32) :
    ixfrdb_key_from (ixfrdb_key_make sf st) = sf := by
  have hf32 : sf % 2 ^ 32 = sf := Nat.mod_eq_of_lt hf
  have ht32 : st % 2 ^ 32 = st := Nat.mod_eq_of_lt ht
  rw [ixfrdb_key_from_eq_mod, ixfrdb_key_make, hf32, ht32]
  apply Nat.eq_of_testBit_eq
  intro i
  rw [Nat.testBit_mod_two_pow]
  rcases lt_or_le i 32 with hi | hi
  · rw [key_make_testBit_low sf st i hi]
    simp [hi]
  · have h1 : decide (i < 32) = false := by simp [Nat.not_lt.mpr hi]
    have h2 : sf.testBit i = false :=
      Nat.testBit_eq_false_of_lt (lt_of_lt_of_le hf (Nat.pow_le_pow_right (by norm_num) hi))
    rw [h1, h2, Bool.false_and]

theorem key_to_make (sf st : Nat) (hf : sf < 2 ^ 32) (ht : st < 2 ^ 32) :
    ixfrdb_key_to (ixfrdb_key_make sf st) = st := by
  have hf32 : sf % 2 ^ 32 = sf := Nat.mod_eq_of_lt hf
  have ht32 : st % 2 ^ 32 = st := Nat.mod_eq_of_lt ht
  rw [ixfrdb_key_to, ixfrdb_key_make, hf32, ht32]
  apply Nat.eq_of_testBit_eq
  intro i
  rw [Nat.testBit_mod_two_pow, Nat.testBit_shiftRight]
  rcases lt_or_le i 32 with hi | hi
  · have h1 : decide (i < 32) = true := by simpa using hi
    rw [h1, Bool.true_and, key_make_testBit_high sf st (32 + i) hf (by omega)]
    congr 1
    omega
  · have h1 : decide (i < 32) = false := by simp [Nat.not_lt.mpr hi]
    have h2 : st.testBit i = false :=
      Nat.testBit_eq_false_of_lt (lt_of_lt_of_le ht (Nat.pow_le_pow_right (by norm_num) hi))
    rw [h1, h2, Bool.false_and]

theorem key_make_lt (sf st : Nat) (hf : sf < 2 ^ 32) (ht : st < 2 ^ 32) :
    ixfrdb_key_make sf st < 2 ^ 64 := by
  have hf32 : sf % 2 ^ 32 = sf := Nat.mod_eq_of_lt hf
  have ht32 : st % 2 ^ 32 = st := Nat.mod_eq_of_lt ht
  rw [ixfrdb_key_make, hf32, ht32]
  have h1 : st <<< 32 < 2 ^ 64 := by
    rw [Nat.shiftLeft_eq]
    calc st * 2 ^ 32 < 2 ^ 32 * 2 ^ 32 := by
          exact Nat.mul_lt_mul_of_lt_of_le ht (le_refl _) (by norm_num)
      _ = 2 ^ 64 := by norm_num
  have h2 : sf < 2 ^ 64 := lt_trans hf (by norm_num)
  exact Nat.bitwise_lt_two_pow h1 h2

theorem key_make_eq_add (sf st : Nat) (hf : sf < 2 ^ 32) (ht : st < 2 ^ 32) :
    ixfrdb_key_make sf st = st * 2 ^ 32 + sf := by
  have hlow : ixfrdb_key_make sf st % 2 ^ 32 = sf := by
    have := key_from_make sf st hf ht
    rwa [ixfrdb_key_from_eq_mod] at this
  have hhigh : ixfrdb_key_make sf st / 2 ^ 32 = st := by
    have h1 := key_to_make sf st hf ht
    rw [ixfrdb_key_to, Nat.shiftRight_eq_div_pow] at h1
    have h2 : ixfrdb_key_make sf st / 2 ^ 32 < 2 ^ 32 := by
      apply Nat.div_lt_of_lt_mul
      calc ixfrdb_key_make sf st < 2 ^ 64 := key_make_lt sf st hf ht
        _ = 2 ^ 32 * 2 ^ 32 := by norm_num
    rwa [Nat.mod_eq_of_lt h2] at h1
  calc ixfrdb_key_make sf st
      = 2 ^ 32 * (ixfrdb_key_make sf st / 2 ^ 32) + ixfrdb_key_make sf st % 2 ^ 32 :=
        (Nat.div_add_mod _ _).symm
    _ = st * 2 ^ 32 + sf := by rw [hlow, hhigh]; ring

/-- Helper characterising what the truncated `uint64` difference actually
returns for 32-bit operands: the comparator result is zero exactly on
equality, and its sign agrees with the true order of `a` and `s` exactly
when the signed difference fits into a 32-bit `int`. -/
theorem cmp32_spec (a s : Nat) (ha : a < 2 ^ 32) (hs : s < 2 ^ 32) :
    (toInt32 ((a + 2 ^ 64 - s % 2 ^ 64) % 2 ^ 64) = 0 ↔ a = s) ∧
    (-(2 ^ 31) ≤ (a : Int) - s → (a : Int) - s < 2 ^ 31 →
      ((toInt32 ((a + 2 ^ 64 - s % 2 ^ 64) % 2 ^ 64) < 0 ↔ a < s) ∧
       (0 < toInt32 ((a + 2 ^ 64 - s % 2 ^ 64) % 2 ^ 64) ↔ s < a))) := by
  have hs64 : s % 2 ^ 64 = s := Nat.mod_eq_of_lt (lt_trans hs (by norm_num))
  rw [hs64]
  unfold toInt32
  split_ifs with h
  · constructor
    · constructor
      · intro h0
        omega
      · intro h0
        omega
    · intro h1 h2
      constructor
      · constructor
        · intro h0
          omega
        · intro h0
          omega
      · constructor
        · intro h0
          omega
        · intro h0
          omega
  · constructor
    · constructor
      · intro h0
        omega
      · intro h0
        omega
    · intro h1 h2
      constructor
      · constructor
        · intro h0
          omega
        · intro h0
          omega
      · constructor
        · intro h0
          omega
        · intro h0
          omega

/-! ## Claim C5 -/

/-- C5: for every pair of 32-bit serials `(from, to)`, the journal key built
by `ixfrdb_key_make from to` carries `serial_to` in its upper 32 bits and
`serial_from` in its lower 32 bits, so `ixfrdb_key_from` and `ixfrdb_key_to`
recover the two serials (a round-trip between serial pairs and 64-bit
keys). -/
theorem c5_key_make_roundtrip (sf st : Nat) (hf : sf < 2 ^ 32) (ht : st < 2 ^ 32) :
    ixfrdb_key_from (ixfrdb_key_make sf st) = sf ∧
    ixfrdb_key_to (ixfrdb_key_make sf st) = st ∧
    ixfrdb_key_make sf st = st * 2 ^ 32 + sf :=
  ⟨key_from_make sf st hf ht, key_to_make sf st hf ht, key_make_eq_add sf st hf ht⟩

/-- Witness for C5 at the concrete serial pair `(7, 5)`. -/
theorem c5_key_make_roundtrip_witness :
    ixfrdb_key_from (ixfrdb_key_make 7 5) = 7 ∧
    ixfrdb_key_to (ixfrdb_key_make 7 5) = 5 ∧
    ixfrdb_key_make 7 5 = 5 * 2 ^ 32 + 7 :=
  c5_key_make_roundtrip 7 5 (by norm_num) (by norm_num)

/-! ## Claim C4

The claim that the comparators order the key part against the serial
correctly for every 64-bit key and 32-bit serial is false: the `uint64`
difference is truncated to a 32-bit `int`, so once the distance exceeds
`2 ^ 31` the sign flips (serial-arithmetic wraparound), and the comparators
are not total orderings of the plain values. -/

/-- Counterexample to C4: at key `2 ^ 31` and serial `0`, the low-32 part of
the key is `2 ^ 31 > 0`, yet `ixfrdb_key_from_cmp` returns a negative
value. -/
theorem c4_counterexample :
    ixfrdb_key_from_cmp (2 ^ 31) 0 < 0 ∧ 0 < ixfrdb_key_from (2 ^ 31) := by
  constructor
  · decide
  · decide

/-- C4 amended: the comparator result is zero exactly when the key part
equals the serial, and its sign orders the key part against the serial
exactly when the signed difference fits in a 32-bit `int`
(`-2 ^ 31 ≤ part - s < 2 ^ 31`); outside that window the sign is inverted
by the truncation to `int`. -/
theorem c4_cmp_amended (k s : Nat) (hs : s < 2 ^ 32) :
    (ixfrdb_key_from_cmp k s = 0 ↔ ixfrdb_key_from k = s) ∧
    (ixfrdb_key_to_cmp k s = 0 ↔ ixfrdb_key_to k = s) ∧
    (-(2 ^ 31) ≤ (ixfrdb_key_from k : Int) - s → (ixfrdb_key_from k : Int) - s < 2 ^ 31 →
      ((ixfrdb_key_from_cmp k s < 0 ↔ ixfrdb_key_from k < s) ∧
       (0 < ixfrdb_key_from_cmp k s ↔ s < ixfrdb_key_from k))) ∧
    (-(2 ^ 31) ≤ (ixfrdb_key_to k : Int) - s → (ixfrdb_key_to k : Int) - s < 2 ^ 31 →
      ((ixfrdb_key_to_cmp k s < 0 ↔ ixfrdb_key_to k < s) ∧
       (0 < ixfrdb_key_to_cmp k s ↔ s < ixfrdb_key_to k))) := by
  obtain ⟨hf0, hf1⟩ := cmp32_spec (ixfrdb_key_from k) s (ixfrdb_key_from_lt k) hs
  obtain ⟨ht0, ht1⟩ := cmp32_spec (ixfrdb_key_to k) s (ixfrdb_key_to_lt k) hs
  exact ⟨hf0, ht0, hf1, ht1⟩

/-- Witness for the amended C4 at key `7` and serial `3`. -/
theorem c4_cmp_amended_witness :
    (ixfrdb_key_from_cmp 7 3 < 0 ↔ ixfrdb_key_from 7 < 3) ∧
    (0 < ixfrdb_key_from_cmp 7 3 ↔ 3 < ixfrdb_key_from 7) :=
  (c4_cmp_amended 7 3 (by norm_num)).2.2.1 (by decide) (by decide)

/-! ## Claim C3 -/

theorem warn_iff_not_serial_lt (a b : Nat) :
    (decide (0 ≤ ns_serial_compare a b) = true) ↔ ¬ serial_lt a b := by
  unfold ns_serial_compare
  split_ifs with h1 h2
  · subst h1
    simp [serial_lt]
  · simp only [decide_eq_true_eq]
    constructor
    · intro h
      omega
    · intro h
      exact absurd h2 h
  · simp only [decide_eq_true_eq]
    constructor
    · intro _
      exact h2
    · intro _
      omega

/-- C3: `zones_next_serial` chooses `old + 1 (mod 2 ^ 32)` under the
increment policy and the current unix time truncated to 32 bits under the
unixtime policy; the warning fires exactly when the chosen serial is not
strictly greater than the old one under RFC 1982 comparison, and the chosen
serial is returned (first component) independently of the warning. -/
theorem c3_next_serial (z : ZoneSerial) (time_now : Nat) :
    (z.serial_policy = .increment →
      (zones_next_serial z time_now).1 = (z.old_serial + 1) % 2 ^ 32) ∧
    (z.serial_policy = .unixtime →
      (zones_next_serial z time_now).1 = time_now % 2 ^ 32) ∧
    ((zones_next_serial z time_now).2 = true ↔
      ¬ serial_lt z.old_serial (zones_next_serial z time_now).1) := by
  refine ⟨?_, ?_, ?_⟩
  · intro h
    simp [zones_next_serial, h]
  · intro h
    simp [zones_next_serial, h]
  · exact warn_iff_not_serial_lt _ _

/-- Witness for C3 with the increment policy at serial 100. -/
theorem c3_next_serial_witness :
    (zones_next_serial ⟨.increment, 100⟩ 0).1 = (100 + 1) % 2 ^ 32 ∧
    ((zones_next_serial ⟨.increment, 100⟩ 0).2 = true ↔
      ¬ serial_lt 100 (zones_next_serial ⟨.increment, 100⟩ 0).1) :=
  ⟨(c3_next_serial ⟨.increment, 100⟩ 0).1 rfl, (c3_next_serial ⟨.increment, 100⟩ 0).2.2⟩

/-! ## Claim C2 -/

/-- C2: when the first store attempt fails with the distinguished `EBUSY`
kind (journal full), the implementation flushes the journal to the text
zonefile and — if the flush worked — retries the store exactly once (one
flush, two attempts) and propagates the retry's outcome with no further
flush or retry; when the first attempt fails with any other kind, the error
is propagated with no flush at all. -/
theorem c2_store_busy_retry (chs : Option (List KnotChangeset)) (env : StoreEnv)
    (hne : zones_changesets_empty chs = false) :
    (env.try1.begin_ok = true → env.try1.store_ret = .EBUSY →
      (env.flush_ret = .EOK →
        (zones_store_changesets_begin_and_store chs env).flushes = 1 ∧
        (zones_store_changesets_begin_and_store chs env).begins = 2 ∧
        (zones_store_changesets_begin_and_store chs env).ret =
          (zones_store_chgsets_try_store env.try2).ret ∧
        (zones_store_changesets_begin_and_store chs env).txn =
          (zones_store_chgsets_try_store env.try2).txn) ∧
      (env.flush_ret ≠ .EOK →
        (zones_store_changesets_begin_and_store chs env).ret = env.flush_ret ∧
        (zones_store_changesets_begin_and_store chs env).begins = 1 ∧
        (zones_store_changesets_begin_and_store chs env).flushes = 1)) ∧
    ((zones_store_chgsets_try_store env.try1).ret ≠ .EBUSY →
      (zones_store_changesets_begin_and_store chs env).flushes = 0 ∧
      (zones_store_changesets_begin_and_store chs env).begins = 1 ∧
      (zones_store_changesets_begin_and_store chs env).ret =
        (zones_store_chgsets_try_store env.try1).ret) := by
  constructor
  · intro hb hs
    have ht1 : zones_store_chgsets_try_store env.try1 = ⟨.EBUSY, .noTxn, 1, 1⟩ := by
      unfold zones_store_chgsets_try_store
      rw [hb, hs]
      simp
    constructor
    · intro hfl
      unfold zones_store_changesets_begin_and_store
      rw [hne, ht1]
      simp [hfl]
    · intro hfl
      unfold zones_store_changesets_begin_and_store
      rw [hne, ht1]
      simp [hfl]
  · intro hnb
    unfold zones_store_changesets_begin_and_store
    rw [hne]
    simp [hnb]

/-- Witness for C2: a full journal on the first attempt, a successful flush
and a successful retry. -/
theorem c2_store_busy_retry_witness :
    (zones_store_changesets_begin_and_store (some [⟨0, 1, [5], []⟩])
        ⟨⟨true, .EBUSY⟩, .EOK, ⟨true, .EOK⟩⟩).flushes = 1 ∧
    (zones_store_changesets_begin_and_store (some [⟨0, 1, [5], []⟩])
        ⟨⟨true, .EBUSY⟩, .EOK, ⟨true, .EOK⟩⟩).begins = 2 ∧
    (zones_store_changesets_begin_and_store (some [⟨0, 1, [5], []⟩])
        ⟨⟨true, .EBUSY⟩, .EOK, ⟨true, .EOK⟩⟩).ret =
      (zones_store_chgsets_try_store ⟨true, .EOK⟩).ret ∧
    (zones_store_changesets_begin_and_store (some [⟨0, 1, [5], []⟩])
        ⟨⟨true, .EBUSY⟩, .EOK, ⟨true, .EOK⟩⟩).txn =
      (zones_store_chgsets_try_store ⟨true, .EOK⟩).txn :=
  ((c2_store_busy_retry (some [⟨0, 1, [5], []⟩]) ⟨⟨true, .EBUSY⟩, .EOK, ⟨true, .EOK⟩⟩
    (by decide)).1 rfl rfl).1 rfl

/-! ## Claim C9 -/

/-- C9: an empty changesets envelope — NULL, containing no changeset, or
with an empty first changeset — makes
`zones_store_changesets_begin_and_store` return `KNOT_EINVAL` without
beginning a journal transaction and without storing anything. -/
theorem c9_empty_envelope (env : StoreEnv) (ch : KnotChangeset)
    (rest : List KnotChangeset) (he : knot_changeset_is_empty ch = true) :
    zones_store_changesets_begin_and_store none env = ⟨.EINVAL, .noTxn, 0, 0, 0⟩ ∧
    zones_store_changesets_begin_and_store (some []) env = ⟨.EINVAL, .noTxn, 0, 0, 0⟩ ∧
    zones_store_changesets_begin_and_store (some (ch :: rest)) env =
      ⟨.EINVAL, .noTxn, 0, 0, 0⟩ := by
  refine ⟨rfl, rfl, ?_⟩
  unfold zones_store_changesets_begin_and_store
  have hemp : zones_changesets_empty (some (ch :: rest)) = true := he
  rw [hemp]
  simp

/-- Witness for C9 at a concrete empty changeset. -/
theorem c9_empty_envelope_witness :
    zones_store_changesets_begin_and_store
      (some [⟨3, 4, [], []⟩]) ⟨⟨true, .EOK⟩, .EOK, ⟨true, .EOK⟩⟩ =
      ⟨.EINVAL, .noTxn, 0, 0, 0⟩ :=
  (c9_empty_envelope ⟨⟨true, .EOK⟩, .EOK, ⟨true, .EOK⟩⟩ ⟨3, 4, [], []⟩ [] (by decide)).2.2

/-! ## Claim C1 -/

theorem try_store_txn_ne_committed (e : TryEnv) :
    (zones_store_chgsets_try_store e).txn ≠ JTxn.committed := by
  unfold zones_store_chgsets_try_store
  split_ifs <;> simp

theorem store_txn_ne_committed (chs : Option (List KnotChangeset)) (env : StoreEnv) :
    (zones_store_changesets_begin_and_store chs env).txn ≠ JTxn.committed := by
  simp only [zones_store_changesets_begin_and_store]
  split_ifs <;> first | exact try_store_txn_ne_committed _ | simp

theorem merge_store_txn_ne_committed (diff sec : Option (List KnotChangeset))
    (menv : MergeEnv) (senv : StoreEnv) :
    (zones_merge_and_store_changesets diff sec menv senv).txn ≠ JTxn.committed := by
  simp only [zones_merge_and_store_changesets]
  split_ifs <;> first | exact store_txn_ne_committed _ _ | simp

theorem upd_after_store_committed (ms : StoreResult) (new_sigs : Bool)
    (apply_ret replan_ret adjust_ret commit_ret switch_ret : KnotR)
    (ht : ms.txn ≠ JTxn.committed)
    (hc : (upd_after_store ms new_sigs apply_ret replan_ret adjust_ret
            commit_ret switch_ret).txn = JTxn.committed)
    (hsw : (upd_after_store ms new_sigs apply_ret replan_ret adjust_ret
            commit_ret switch_ret).switched = false) :
    switch_ret ≠ .EOK ∧ commit_ret = .EOK ∧
    (upd_after_store ms new_sigs apply_ret replan_ret adjust_ret
      commit_ret switch_ret).ret = .ERROR := by
  unfold upd_after_store at *
  split_ifs at hc hsw ⊢ <;> simp_all

/-- Counterexample to C1: a run of the UPDATE path in which everything
succeeds up to and including the journal commit and only the atomic
contents switch fails leaves the journal transaction committed while the
old snapshot stays installed — journal and content update are not rolled
back together. -/
theorem c1_counterexample :
    (zones_process_update_auth updSwitchFailEnv).txn = JTxn.committed ∧
    (zones_process_update_auth updSwitchFailEnv).switched = false ∧
    (zones_process_update_auth updSwitchFailEnv).ret = .ERROR := by
  decide

/-- C1 amended: a failure anywhere in the UPDATE path after the journal
transaction has begun but before a successful commit never leaves a
committed journal change (the transaction is rolled back or left
uncommitted) and the old snapshot stays visible; the single exception is
the atomic contents switch failing after a successful commit, in which case
the committed journal entry remains while the old snapshot stays installed
and `KNOT_ERROR` is returned. -/
theorem c1_commit_switch_amended (env : UpdEnv)
    (hc : (zones_process_update_auth env).txn = JTxn.committed)
    (hsw : (zones_process_update_auth env).switched = false) :
    env.switch_ret ≠ .EOK ∧ env.commit_ret = .EOK ∧
    (zones_process_update_auth env).ret = .ERROR := by
  obtain ⟨cok, ccok, proc, dns, scok, fzok, dkch, sfr, sir, chs, sec,
    menv, senv, ar, rr, adr, cr, swr⟩ := env
  cases proc <;>
    simp only [zones_process_update_auth] at hc hsw ⊢ <;>
    split_ifs at hc hsw ⊢ <;>
    first
      | exact upd_after_store_committed _ _ _ _ _ _ _
          (merge_store_txn_ne_committed chs sec menv senv) hc hsw
      | exact upd_after_store_committed _ _ _ _ _ _ _
          (merge_store_txn_ne_committed chs none menv senv) hc hsw
      | exact absurd hc (merge_store_txn_ne_committed chs sec menv senv)
      | exact absurd hc (merge_store_txn_ne_committed chs none menv senv)

/-- Witness for the amended C1 at the concrete switch-failure run. -/
theorem c1_commit_switch_amended_witness :
    updSwitchFailEnv.switch_ret ≠ .EOK ∧ updSwitchFailEnv.commit_ret = .EOK ∧
    (zones_process_update_auth updSwitchFailEnv).ret = .ERROR :=
  c1_commit_switch_amended updSwitchFailEnv (by decide) (by decide)

/-! ## Claim C6 -/

theorem sync_apply_clears_dirty (n : JNode) : (zones_ixfrdb_sync_apply n).dirty = false := by
  unfold zones_ixfrdb_sync_apply
  split_ifs with h
  · rfl
  · simpa using h

/-- C6: when the zonefile serial already equals the apex SOA serial,
`zones_zonefile_sync` performs no zonefile write and returns the
distinguished `KNOT_ERANGE` result with the state untouched; a successful
flush performs exactly one write, updates `zonefile_serial` to the flushed
serial and clears the DIRTY flag of every journal entry, so a second call
at the same serial writes nothing and returns `KNOT_ERANGE` — two
successive flushes at one serial produce exactly one file write. -/
theorem c6_zonefile_sync_idempotent (z : ZoneSync) (s : Int) (j : List JNode)
    (dump_ret : KnotR) (stat_ok : Bool) (mt : Nat) (hs : 0 ≤ s) :
    (z.zonefile_serial = s.toNat % 2 ^ 32 →
      zones_zonefile_sync z (some s) j dump_ret stat_ok mt = ⟨.ERANGE, z, j, 0⟩) ∧
    (z.zonefile_serial ≠ s.toNat % 2 ^ 32 → dump_ret = .EOK → stat_ok = true →
      (zones_zonefile_sync z (some s) j dump_ret stat_ok mt).ret = .EOK ∧
      (zones_zonefile_sync z (some s) j dump_ret stat_ok mt).writes = 1 ∧
      (zones_zonefile_sync z (some s) j dump_ret stat_ok mt).zone.zonefile_serial =
        s.toNat % 2 ^ 32 ∧
      (∀ n ∈ (zones_zonefile_sync z (some s) j dump_ret stat_ok mt).journal,
        n.dirty = false) ∧
      (∀ dr2 so2 mt2,
        zones_zonefile_sync (zones_zonefile_sync z (some s) j dump_ret stat_ok mt).zone
            (some s) (zones_zonefile_sync z (some s) j dump_ret stat_ok mt).journal
            dr2 so2 mt2 =
          ⟨.ERANGE, (zones_zonefile_sync z (some s) j dump_ret stat_ok mt).zone,
           (zones_zonefile_sync z (some s) j dump_ret stat_ok mt).journal, 0⟩)) := by
  have hns : ¬ s < 0 := by omega
  constructor
  · intro heq
    unfold zones_zonefile_sync
    simp [hns, heq]
  · intro hne hd hst
    have hne2 : ¬ z.zonefile_serial = s.toNat % 4294967296 := by
      intro hx
      exact hne (by norm_num [hx])
    have hrun : zones_zonefile_sync z (some s) j dump_ret stat_ok mt =
        ⟨.EOK, ⟨s.toNat % 2 ^ 32, mt⟩, j.map zones_ixfrdb_sync_apply, 1⟩ := by
      unfold zones_zonefile_sync
      simp [hns, hne2, hd, hst]
    rw [hrun]
    refine ⟨rfl, rfl, rfl, ?_, ?_⟩
    · intro n hn
      obtain ⟨m, _, rfl⟩ := List.mem_map.mp hn
      exact sync_apply_clears_dirty m
    · intro dr2 so2 mt2
      unfold zones_zonefile_sync
      simp [hns]

/-- Witness for C6: a successful flush at serial 5 from zonefile serial 0,
followed by a second call at the same serial. -/
theorem c6_zonefile_sync_idempotent_witness :
    zones_zonefile_sync
        (zones_zonefile_sync ⟨0, 0⟩ (some 5) [⟨true, true, false⟩] .EOK true 3).zone
        (some 5)
        (zones_zonefile_sync ⟨0, 0⟩ (some 5) [⟨true, true, false⟩] .EOK true 3).journal
        .EOK true 9 =
      ⟨.ERANGE,
       (zones_zonefile_sync ⟨0, 0⟩ (some 5) [⟨true, true, false⟩] .EOK true 3).zone,
       (zones_zonefile_sync ⟨0, 0⟩ (some 5) [⟨true, true, false⟩] .EOK true 3).journal,
       0⟩ :=
  ((c6_zonefile_sync_idempotent ⟨0, 0⟩ 5 [⟨true, true, false⟩] .EOK true 3
    (by norm_num)).2 (by decide) rfl rfl).2.2.2.2 .EOK true 9

/-! ## Claim C7 -/

theorem cname_loop_eq_steps (z : CnameZone) :
    ∀ fuel od i, cname_loop z fuel od i = i + steps_until_none z fuel od := by
  intro fuel
  induction fuel with
  | zero =>
    intro od i
    cases od <;> simp [cname_loop, steps_until_none]
  | succ n ih =>
    intro od i
    cases od with
    | none => simp [cname_loop, steps_until_none]
    | some d =>
      simp only [cname_loop, steps_until_none, ih]
      omega

theorem steps_until_none_le (z : CnameZone) :
    ∀ fuel od, steps_until_none z fuel od ≤ fuel := by
  intro fuel
  induction fuel with
  | zero => intro od; simp [steps_until_none]
  | succ n ih =>
    intro od
    cases od with
    | none => simp [steps_until_none]
    | some d =>
      simp only [steps_until_none]
      exact Nat.succ_le_succ (ih _)

theorem cname_iter_of_steps_lt (z : CnameZone) :
    ∀ fuel od, steps_until_none z fuel od < fuel →
      cname_iter z od (steps_until_none z fuel od) = none := by
  intro fuel
  induction fuel with
  | zero => intro od h; omega
  | succ n ih =>
    intro od h
    cases od with
    | none => simp [steps_until_none, cname_iter]
    | some d =>
      simp only [steps_until_none, cname_iter] at h ⊢
      exact ih (cname_step z d) (by omega)

theorem steps_le_of_cname_iter_none (z : CnameZone) :
    ∀ fuel k od, k < fuel → cname_iter z od k = none →
      steps_until_none z fuel od ≤ k := by
  intro fuel
  induction fuel with
  | zero => intro k od h _; omega
  | succ n ih =>
    intro k od hk hit
    cases od with
    | none => simp [steps_until_none]
    | some d =>
      cases k with
      | zero => simp [cname_iter] at hit
      | succ m =>
        simp only [cname_iter] at hit
        simp only [steps_until_none]
        exact Nat.succ_le_succ (ih m (cname_step z d) (by omega) hit)

/-- Counterexample to C7: the chain of `cnameChainZone` starting at name 0
terminates (leaves the zone) at the 15th lookup — within the depth bound of
15 — yet `check_cname_cycles_in_zone` reports it as a cycle (`-1`). -/
theorem c7_counterexample :
    check_cname_cycles_in_zone cnameChainZone 0 = -1 ∧
    cname_iter cnameChainZone (some 0) MAX_CNAME_CYCLE_DEPTH = none := by
  constructor
  · decide
  · decide

/-- C7 amended: the check returns 0 exactly for chains whose termination
(resolution or leaving the zone) is discovered within fewer than
`MAX_CNAME_CYCLE_DEPTH = 15` lookups; every chain that needs 15 or more
lookups — even one that terminates exactly at the 15th — is reported as a
cycle (non-zero). -/
theorem c7_cname_cycle_amended (z : CnameZone) (start : Nat) :
    check_cname_cycles_in_zone z start = 0 ↔
      ∃ k, k < MAX_CNAME_CYCLE_DEPTH ∧ cname_iter z (some start) k = none := by
  unfold check_cname_cycles_in_zone
  rw [cname_loop_eq_steps z MAX_CNAME_CYCLE_DEPTH (some start) 0]
  simp only [Nat.zero_add]
  constructor
  · intro h
    by_cases hle : MAX_CNAME_CYCLE_DEPTH ≤
        steps_until_none z MAX_CNAME_CYCLE_DEPTH (some start)
    · rw [if_pos hle] at h
      exact absurd h (by norm_num)
    · refine ⟨steps_until_none z MAX_CNAME_CYCLE_DEPTH (some start), by omega, ?_⟩
      exact cname_iter_of_steps_lt z MAX_CNAME_CYCLE_DEPTH (some start) (by omega)
  · rintro ⟨k, hk, hit⟩
    have hle := steps_le_of_cname_iter_none z MAX_CNAME_CYCLE_DEPTH k (some start) hk hit
    have : ¬ MAX_CNAME_CYCLE_DEPTH ≤ steps_until_none z MAX_CNAME_CYCLE_DEPTH (some start) := by
      omega
    simp [this]

/-! ## Claim C8 -/

/-- C8 at its failing input: the process dumps two zones; the first has one
NSEC3 node and no normal nodes, the second one normal node and no NSEC3
nodes.  The second invocation patches `2` into the normal-node-count header
slot although it wrote exactly `1` normal node — the stale process-global
`node_count` (never reset at function entry, only between the two trees)
leaks the previous dump's NSEC3 count into the next dump's normal count. -/
theorem c8_stale_counter_bug :
    zdump_run 0 [⟨[], [⟨false⟩]⟩, ⟨[⟨false⟩], []⟩] = [⟨0, 1, 1⟩, ⟨2, 0, 1⟩] ∧
    (⟨[⟨false⟩], []⟩ : DumpZone).normal.length = 1 ∧
    dump_auth_count ((⟨[⟨false⟩], []⟩ : DumpZone).normal ++
      (⟨[⟨false⟩], []⟩ : DumpZone).nsec3) = 1 := by
  decide

/-! ## Claim C10 -/

/-- Counterexample to C10: with an SOA refresh of 4294968 seconds the
`uint32_t` millisecond conversion wraps, so `zones_soa_refresh` returns 704
rather than the field multiplied by 1000. -/
theorem c10_counterexample :
    zones_soa_refresh ⟨some ⟨4294968, 0, 0⟩⟩ = 704 ∧
    zones_soa_refresh ⟨some ⟨4294968, 0, 0⟩⟩ ≠ 4294968 * 1000 := by
  constructor
  · decide
  · decide

/-- C10 amended: for NULL contents `zones_soa_timer` and its three wrappers
return 0 milliseconds rather than failing; with contents present each
wrapper returns the selected SOA RDATA field multiplied by 1000 reduced
modulo `2 ^ 32` (the plain product whenever it fits in 32 bits). -/
theorem c10_soa_timer_amended (zone : TimerZone) :
    (zone.contents = none →
      zones_soa_refresh zone = 0 ∧ zones_soa_retry zone = 0 ∧
      zones_soa_expire zone = 0) ∧
    (∀ soa, zone.contents = some soa →
      zones_soa_refresh zone = knot_rdata_soa_refresh soa * 1000 % 2 ^ 32 ∧
      zones_soa_retry zone = knot_rdata_soa_retry soa * 1000 % 2 ^ 32 ∧
      zones_soa_expire zone = knot_rdata_soa_expire soa * 1000 % 2 ^ 32 ∧
      (knot_rdata_soa_refresh soa * 1000 < 2 ^ 32 →
        zones_soa_refresh zone = knot_rdata_soa_refresh soa * 1000)) := by
  constructor
  · intro h
    simp [zones_soa_refresh, zones_soa_retry, zones_soa_expire, zones_soa_timer, h]
  · intro soa h
    refine ⟨?_, ?_, ?_, ?_⟩
    · simp [zones_soa_refresh, zones_soa_timer, h]
    · simp [zones_soa_retry, zones_soa_timer, h]
    · simp [zones_soa_expire, zones_soa_timer, h]
    · intro hlt
      have hlt2 : knot_rdata_soa_refresh soa * 1000 < 4294967296 := by
        norm_num at hlt
        exact hlt
      simp [zones_soa_refresh, zones_soa_timer, h, Nat.mod_eq_of_lt hlt, hlt2]

/-- Witness for the amended C10 at a zone with SOA refresh 600 seconds. -/
theorem c10_soa_timer_amended_witness :
    zones_soa_refresh ⟨some ⟨600, 300, 3600⟩⟩ = knot_rdata_soa_refresh ⟨600, 300, 3600⟩ * 1000 :=
  (((c10_soa_timer_amended ⟨some ⟨600, 300, 3600⟩⟩).2 ⟨600, 300, 3600⟩ rfl).2.2.2) (by decide)

end Knot
